import Mathlib

/-!
Shallow embedding of the motioncntrl backend (src/backend/server.js) and
proofs about the behaviour of its route handlers.

The server is a single Express application.  Each route handler is embedded
as a pure Lean function: all external effects (the S3 client, the Kling AI
HTTP calls, the ffmpeg invocation, the response stream) are supplied as an
explicit environment of outcomes, and each handler returns a result record
that carries, besides the HTTP status and body message, a trace of the
remote calls it issued and of the local files it created and deleted.
Machine integers of JavaScript are modelled as `Nat`/`Int`; `undefined`
values as `Option`; JavaScript string falsiness (`!s`) is spelled out.
-/

/-! ### Token signer (server.js lines 64–132) -/

/-- Claims carried by the JWT produced by `generateJwtToken`: issuer,
expiry and not-before (server.js lines 90–94).  The signature itself is a
pure function of these claims and the secret, so it is not modelled. -/
structure JwtPayload where
  iss : String
  exp : Int
  nbf : Int
  deriving DecidableEq, Repr

/-- Ways in which `generateJwtToken` can throw instead of returning a
token: `KLING_ACCESS_KEY.trim()` on an undefined key raises a TypeError
(line 91), `KLING_SECRET_KEY.trim()` likewise (line 106), and the jwt
library rejects an empty (falsy) signing secret. -/
inductive SignError where
  | undefinedAccessKey
  | undefinedSecretKey
  | emptySecretKey
  deriving DecidableEq, Repr

/-- Model of `String.prototype.trim`: drop leading and trailing
whitespace (written structurally so that concrete instances evaluate). -/
def jsTrim (s : String) : String :=
  String.mk (((s.data.dropWhile Char.isWhitespace).reverse.dropWhile
    Char.isWhitespace).reverse)

/-- Embedding of `generateJwtToken` (server.js lines 86–120).  The two
environment variables are `Option String` (`none` models an unset
variable) and `now` is `Math.floor(Date.now() / 1000)` at the moment of
the call.  The payload is built first, so an undefined access key throws
before an undefined secret key does; a secret that trims to the empty
string is rejected by `jwt.sign`; every other input yields a token whose
issuer is the trimmed access key — even when that trim is empty. -/
def generateJwtToken (accessKey secretKey : Option String) (now : Int) :
    Except SignError JwtPayload :=
  match accessKey with
  | none => .error .undefinedAccessKey
  | some ak =>
    match secretKey with
    | none => .error .undefinedSecretKey
    | some sk =>
      if jsTrim sk = "" then .error .emptySecretKey
      else .ok { iss := jsTrim ak, exp := now + 1800, nbf := now - 5 }

/-- Headers attached to every outbound Kling AI call.  The bearer token is
kept as its payload (the claims), since the signature is determined by
them. -/
structure AuthHeaders where
  contentType : String
  bearerToken : JwtPayload
  deriving DecidableEq, Repr

/-- Embedding of `getAuthHeaders` (server.js lines 125–132): it invokes
`generateJwtToken` anew on every call — there is no cache — and wraps the
fresh token in the header record. -/
def getAuthHeaders (accessKey secretKey : Option String) (now : Int) :
    Except SignError AuthHeaders :=
  (generateJwtToken accessKey secretKey now).map
    (fun token => { contentType := "application/json", bearerToken := token })

/-! ### CORS policy (server.js lines 25–40) -/

/-- The fixed origin allowlist (server.js lines 25–30). -/
def allowedOrigins : List String :=
  ["https://celebrated-heliotrope-1bcaaf.netlify.app",
   "http://localhost:3000",
   "http://localhost:5500",
   "http://127.0.0.1:5500"]

/-- Embedding of the cors origin callback (server.js lines 32–39).
`none` models a request without an Origin header.  The JavaScript guard
`if (!origin)` is also taken by an empty-string origin, which is falsy. -/
def corsOriginAllowed (origin : Option String) : Bool :=
  match origin with
  | none => true
  | some o =>
    if o = "" then true
    else allowedOrigins.contains o

/-! ### Upload naming (server.js lines 44–52 and 153) -/

/-- Embedding of node `path.extname` restricted to plain base names (the
multer callback passes `file.originalname`): the suffix starting at the
last dot, or the empty string when there is no dot or the only dot is the
leading character. -/
def extname (name : String) : String :=
  let cs := name.data
  let after := (cs.reverse.takeWhile (fun c => c ≠ '.')).reverse
  if cs.length - after.length ≤ 1 then "" else String.mk ('.' :: after)

/-- Embedding of the multer diskStorage filename callback (server.js
lines 48–51): `Date.now() + '-' + Math.round(Math.random() * 1E9)` plus
the original extension.  `nowMs` is the millisecond clock reading and
`rand` the rounded random draw; both are inputs of the model because the
code derives the name from nothing else. -/
def multerFilename (nowMs rand : Nat) (ext : String) : String :=
  toString nowMs ++ "-" ++ toString rand ++ ext

/-- Embedding of the S3 object key built by `uploadToS3` (server.js
line 153): a `kling-uploads/` prefix, the millisecond clock reading, a
dash, and the display name of the file. -/
def s3Key (nowMs : Nat) (fileName : String) : String :=
  "kling-uploads/" ++ toString nowMs ++ "-" ++ fileName

/-- One client upload as the naming layer sees it: the raw bytes and the
display name.  Only the display name flows into either generated name. -/
structure UploadPayload where
  content : String
  originalname : String
  deriving DecidableEq, Repr

/-- The S3 key assigned to a payload uploaded at millisecond `nowMs`
(server.js line 153 uses `file.originalname` as the display name). -/
def s3KeyOf (nowMs : Nat) (p : UploadPayload) : String :=
  s3Key nowMs p.originalname

/-- The local stored name multer assigns to a payload received at
millisecond `nowMs` with random draw `rand` (server.js lines 48–51). -/
def storedNameOf (nowMs rand : Nat) (p : UploadPayload) : String :=
  multerFilename nowMs rand (extname p.originalname)

/-! ### POST /api/generate (server.js lines 54–59 and 208–342) -/

/-- One file as multer stores it and as the handler reads it from
`req.files` (path on disk, original display name, MIME type and size in
bytes). -/
structure UploadedFile where
  path : String
  originalname : String
  mimetype : String
  size : Nat
  deriving DecidableEq, Repr

/-- The two single-file fields accepted by `upload.fields` (server.js
lines 208–211); `none` models an absent field. -/
structure GenerateFiles where
  image : Option UploadedFile
  video : Option UploadedFile
  deriving DecidableEq, Repr

/-- The form fields read from `req.body` (server.js lines 243–248).
Fields without defaults are `Option String`: `none` models an absent
field, `some ""` an empty one — both are falsy in the JavaScript guard. -/
structure GenerateBody where
  prompt : String
  character_orientation : Option String
  mode : Option String
  keep_original_sound : String
  deriving DecidableEq, Repr

/-- JavaScript truthiness of an optional string: false for undefined and
for the empty string. -/
def strTruthy (s : Option String) : Bool :=
  match s with
  | none => false
  | some v => !(v == "")

/-- JavaScript `v || dflt` for an optional string (falsy when absent or
empty). -/
def jsOrStr (v : Option String) (dflt : String) : String :=
  match v with
  | none => dflt
  | some s => if s = "" then dflt else s

/-- JavaScript `v || dflt` for an optional number (falsy when absent or
zero). -/
def jsOrNat (v : Option Nat) (dflt : Nat) : Nat :=
  match v with
  | none => dflt
  | some n => if n = 0 then dflt else n

/-- Outcome of one `uploadToS3` attempt past its configuration guard:
either the presigned URL, or the message of the error it threw (read,
put or presign failure), which the function rewraps (server.js
lines 179–182). -/
inductive S3Outcome where
  | ok (presignedUrl : String)
  | err (message : String)
  deriving DecidableEq, Repr

/-- Outcome of the `axios.post` call to the Kling AI generation endpoint
(server.js lines 295–302), header construction included.  `apiError`
models a rejection carrying `error.response.data` (structured upstream
error, fields optional because `||` defaults apply); `transportError`
models every other throw reaching the catch block (timeout, connection
failure, or a header-construction throw before the request is sent). -/
inductive KlingOutcome where
  | ok (taskId : String) (taskStatus : String) (createdAt : String)
  | apiError (status : Option Nat) (message : Option String)
  | transportError (message : String)
  deriving DecidableEq, Repr

/-- Environment of the generate handler: the `S3_ENABLED` environment
variable (server.js line 70) and the outcomes of the three remote
interactions in the order the handler reaches them. -/
structure GenerateEnv where
  s3EnabledEnv : Option String
  imageUpload : S3Outcome
  videoUpload : S3Outcome
  kling : KlingOutcome
  deriving DecidableEq, Repr

/-- Embedding of the `S3_ENABLED` flag: `process.env.S3_ENABLED === 'true'`
(server.js line 70). -/
def s3Enabled (env : GenerateEnv) : Bool :=
  env.s3EnabledEnv == some "true"

/-- A remote interaction the generate handler reached: an S3 put (with the
local path being uploaded) or the Kling AI generation request. -/
inductive RemoteCall where
  | s3Put (path : String)
  | klingGenerate
  deriving DecidableEq, Repr

/-- Result of one run of the generate handler: HTTP status, success flag
and message of the JSON body, the local paths passed to `fs.unlink` by
`cleanupFiles`, and the trace of remote interactions reached. -/
structure GenerateResult where
  status : Nat
  success : Bool
  message : String
  cleaned : List String
  calls : List RemoteCall
  deriving DecidableEq, Repr

/-- Embedding of the POST /api/generate handler body (server.js
lines 208–342).  Validation failures return 400 directly from inside the
try block, so they reach neither `cleanupFiles` call site; the
`S3 is not configured` throw of `uploadToS3` (lines 147–149) happens
before any remote interaction; every throw after validation lands in the
catch block, which cleans up both stored files (line 321). -/
def postGenerate (env : GenerateEnv) (files : GenerateFiles)
    (body : GenerateBody) : GenerateResult :=
  match files.image, files.video with
  | none, _ =>
    { status := 400, success := false,
      message := "Both image and video files are required",
      cleaned := [], calls := [] }
  | some _, none =>
    { status := 400, success := false,
      message := "Both image and video files are required",
      cleaned := [], calls := [] }
  | some imageFile, some videoFile =>
    if imageFile.size > 10 * 1024 * 1024 then
      { status := 400, success := false,
        message := "Image file must be less than 10MB",
        cleaned := [], calls := [] }
    else if videoFile.size > 100 * 1024 * 1024 then
      { status := 400, success := false,
        message := "Video file must be less than 100MB",
        cleaned := [], calls := [] }
    else if !(strTruthy body.character_orientation) || !(strTruthy body.mode) then
      { status := 400, success := false,
        message := "character_orientation and mode are required",
        cleaned := [], calls := [] }
    else
      let uploaded := [imageFile.path, videoFile.path]
      if !(s3Enabled env) then
        { status := 500, success := false, message := "S3 is not configured",
          cleaned := uploaded, calls := [] }
      else
        match env.imageUpload with
        | .err m =>
          { status := 500, success := false,
            message := "Failed to upload to S3: " ++ m,
            cleaned := uploaded, calls := [.s3Put imageFile.path] }
        | .ok _imageUrl =>
          match env.videoUpload with
          | .err m =>
            { status := 500, success := false,
              message := "Failed to upload to S3: " ++ m,
              cleaned := uploaded,
              calls := [.s3Put imageFile.path, .s3Put videoFile.path] }
          | .ok _videoUrl =>
            match env.kling with
            | .apiError st msg =>
              { status := jsOrNat st 500, success := false,
                message := jsOrStr msg "Kling AI API error",
                cleaned := uploaded,
                calls := [.s3Put imageFile.path, .s3Put videoFile.path,
                          .klingGenerate] }
            | .transportError m =>
              { status := 500, success := false, message := m,
                cleaned := uploaded,
                calls := [.s3Put imageFile.path, .s3Put videoFile.path,
                          .klingGenerate] }
            | .ok _tid _tstat _created =>
              { status := 200, success := true,
                message := "Video generation task created successfully",
                cleaned := uploaded,
                calls := [.s3Put imageFile.path, .s3Put videoFile.path,
                          .klingGenerate] }

/-- The multer per-file size cap configured for the upload middleware
(server.js lines 54–59): `fileSize: 100 * 1024 * 1024`. -/
def multerFileSizeLimit : Nat := 100 * 1024 * 1024

/-- Whether one optional multipart file exceeds the multer cap. -/
def fileOverLimit (f : Option UploadedFile) : Bool :=
  match f with
  | none => false
  | some file => file.size > multerFileSizeLimit

/-- Result of the whole route: either the handler ran, or the multer
middleware aborted the request first. -/
inductive GenerateRouteResult where
  | handled (r : GenerateResult)
  | middlewareError (status : Nat)
  deriving DecidableEq, Repr

/-- Embedding of the full POST /api/generate route.  A multipart file
whose size exceeds `limits.fileSize` makes multer abort with a
`LIMIT_FILE_SIZE` error before the handler runs; the app installs no
error-handling middleware, so the Express default handler answers it with
status 500.  Only requests whose files are all within the cap reach
`postGenerate`. -/
def generateRoute (env : GenerateEnv) (files : GenerateFiles)
    (body : GenerateBody) : GenerateRouteResult :=
  if fileOverLimit files.image || fileOverLimit files.video then
    .middlewareError 500
  else
    .handled (postGenerate env files body)

/-- HTTP status produced by the route. -/
def routeStatus : GenerateRouteResult → Nat
  | .handled r => r.status
  | .middlewareError s => s

/-- Remote interactions reached by the route (none when multer aborts). -/
def routeCalls : GenerateRouteResult → List RemoteCall
  | .handled r => r.calls
  | .middlewareError _ => []

/-- The local paths under which multer stored this request's files: any
file present in the multipart body is written to disk before the handler
runs. -/
def storedPaths (files : GenerateFiles) : List String :=
  (files.image.map (fun f => f.path)).toList ++
    (files.video.map (fun f => f.path)).toList

/-- The validation gate of the handler (server.js lines 216–256), as one
predicate: both files present, image within 10 MiB, video within 100 MiB,
and both required form fields truthy.  `postGenerate` reaches the upload
stage exactly when this holds. -/
def validationOk (files : GenerateFiles) (body : GenerateBody) : Bool :=
  match files.image, files.video with
  | some i, some v =>
    !(i.size > 10 * 1024 * 1024 : Bool) &&
      !(v.size > 100 * 1024 * 1024 : Bool) &&
      strTruthy body.character_orientation && strTruthy body.mode
  | _, _ => false

/-- Whether every file of the request is within the multer transport cap,
so that the request reaches the handler at all. -/
def underMulterLimit (files : GenerateFiles) : Bool :=
  !(fileOverLimit files.image) && !(fileOverLimit files.video)

/-! ### GET /api/download/:taskId (server.js lines 386–509) -/

/-- Outcome of the status query that opens the download handler
(server.js lines 400–408): either the parsed payload — the task status
string together with `task_result?.videos?.[0]?.url` — or a thrown error
(the handler's catch treats every failure of this call alike). -/
inductive TaskQuery where
  | ok (taskStatus : String) (videoUrl : Option String)
  | failed (message : String)
  deriving DecidableEq, Repr

/-- Outcome of one awaited step that either completes or throws with a
message (the video download and the ffmpeg promise). -/
inductive StepOutcome where
  | ok
  | fail (message : String)
  deriving DecidableEq, Repr

/-- How the response read stream finishes (server.js lines 481–492): its
`end` event fires after the file was fully read, or its `error` event
fires instead. -/
inductive StreamOutcome where
  | ended
  | errored
  deriving DecidableEq, Repr

/-- Environment of the download handler: the status-query outcome, whether
the logo asset exists on disk (server.js line 426), the outcome of the
video download (lines 439–444), of the ffmpeg run (lines 449–473), and of
the response stream. -/
structure DownloadEnv where
  taskQuery : TaskQuery
  logoExists : Bool
  videoDownload : StepOutcome
  ffmpegRun : StepOutcome
  streamOutcome : StreamOutcome
  deriving DecidableEq, Repr

/-- Result of one run of the download handler: HTTP status, optional JSON
error message, how many video downloads and ffmpeg invocations were
attempted, the temp file names the handler registered, and the paths it
passed to `fs.unlink`. -/
structure DownloadResult where
  status : Nat
  message : Option String
  downloadAttempts : Nat
  ffmpegInvocations : Nat
  tempCreated : List String
  cleaned : List String
  deriving DecidableEq, Repr

/-- Name of the temp file the original video is downloaded into
(server.js line 434), relative to the uploads directory. -/
def tempInputName (taskId : String) (nowMs : Nat) : String :=
  "temp-input-" ++ taskId ++ "-" ++ toString nowMs ++ ".mp4"

/-- Name of the temp file ffmpeg writes the watermarked video into
(server.js line 435), relative to the uploads directory. -/
def tempOutputName (taskId : String) (nowMs : Nat) : String :=
  "temp-output-" ++ taskId ++ "-" ++ toString nowMs ++ ".mp4"

/-- Embedding of the GET /api/download/:taskId handler (server.js
lines 392–509).  The precondition ladder runs before any temp file is
created: a failed status query lands in the catch (500) with no temp
files; a non-succeed status returns 400; a missing result URL returns
404; a missing logo returns 500 — all without a download or an ffmpeg
run.  Past those, both temp names are registered, and a throw of the
download or of ffmpeg reaches the catch, which unlinks both.  When
streaming starts, the `end` handler unlinks both, but the `error` handler
only ends the response — it deletes nothing.  `nowMsIn` and `nowMsOut`
are the two `Date.now()` readings naming the temp files. -/
def downloadHandler (env : DownloadEnv) (taskId : String)
    (nowMsIn nowMsOut : Nat) : DownloadResult :=
  match env.taskQuery with
  | .failed m =>
    { status := 500, message := some (jsOrStr (some m) "Failed to process video download"),
      downloadAttempts := 0, ffmpegInvocations := 0,
      tempCreated := [], cleaned := [] }
  | .ok taskStatus videoUrl =>
    if taskStatus ≠ "succeed" then
      { status := 400, message := some "Video is not ready yet",
        downloadAttempts := 0, ffmpegInvocations := 0,
        tempCreated := [], cleaned := [] }
    else
      match videoUrl with
      | none =>
        { status := 404, message := some "No video URL found for this task",
          downloadAttempts := 0, ffmpegInvocations := 0,
          tempCreated := [], cleaned := [] }
      | some _url =>
        if !env.logoExists then
          { status := 500, message := some "Logo file not found on server",
            downloadAttempts := 0, ffmpegInvocations := 0,
            tempCreated := [], cleaned := [] }
        else
          let tempFiles := [tempInputName taskId nowMsIn,
                            tempOutputName taskId nowMsOut]
          match env.videoDownload with
          | .fail m =>
            { status := 500, message := some (jsOrStr (some m) "Failed to process video download"),
              downloadAttempts := 1, ffmpegInvocations := 0,
              tempCreated := tempFiles, cleaned := tempFiles }
          | .ok =>
            match env.ffmpegRun with
            | .fail m =>
              { status := 500, message := some ("ffmpeg failed: " ++ m),
                downloadAttempts := 1, ffmpegInvocations := 1,
                tempCreated := tempFiles, cleaned := tempFiles }
            | .ok =>
              match env.streamOutcome with
              | .ended =>
                { status := 200, message := none,
                  downloadAttempts := 1, ffmpegInvocations := 1,
                  tempCreated := tempFiles, cleaned := tempFiles }
              | .errored =>
                { status := 200, message := none,
                  downloadAttempts := 1, ffmpegInvocations := 1,
                  tempCreated := tempFiles, cleaned := [] }

/-! ### Static uploads route (server.js line 62) -/

/-- A request against the static uploads mount: the file name under
`/uploads/` and whatever Authorization header the client sent. -/
structure StaticRequest where
  filename : String
  authorization : Option String
  deriving DecidableEq, Repr

/-- Response of the static middleware: the file is served, or the request
falls through to the next route. -/
inductive StaticResponse where
  | served (filename : String)
  | passedThrough
  deriving DecidableEq, Repr

/-- Embedding of `app.use('/uploads', express.static('uploads'))`
(server.js line 62): given the current listing of the uploads directory,
a GET for `/uploads/<filename>` serves the file whenever it is present,
and the request's Authorization header is never consulted — no
authentication middleware is installed anywhere in the app. -/
def uploadsStaticRoute (uploadsFiles : List String) (req : StaticRequest) :
    StaticResponse :=
  if uploadsFiles.contains req.filename then .served req.filename
  else .passedThrough

/-! ### Decimal rendering facts

Both generated names interpolate numbers into strings, so reasoning about
collisions needs that the decimal rendering `Nat.repr` is injective and
consists of digit characters only.  We decode a digit list back to the
number it denotes and prove the round trip. -/

/-- Numeric value of a decimal digit character. -/
def digitVal (c : Char) : Nat := c.toNat - 48

/-- One step of reading a decimal numeral left to right. -/
def decodeStep (a : Nat) (c : Char) : Nat := 10 * a + digitVal c

/-- Value denoted by a list of decimal digit characters. -/
def natDecode (cs : List Char) : Nat := cs.foldl decodeStep 0

theorem digitVal_digitChar {k : Nat} (h : k < 10) :
    digitVal (Nat.digitChar k) = k := by
  interval_cases k <;> rfl

theorem digitChar_isDigit {k : Nat} (h : k < 10) :
    (Nat.digitChar k).isDigit = true := by
  interval_cases k <;> rfl

theorem foldl_toDigitsCore (f : Nat) :
    ∀ (n : Nat) (ds : List Char), n < 10 ^ f →
      (Nat.toDigitsCore 10 f n ds).foldl decodeStep 0 = ds.foldl decodeStep n := by
  induction f with
  | zero =>
    intro n ds h
    have hn : n = 0 := by simpa using h
    subst hn
    rfl
  | succ f ih =>
    intro n ds h
    by_cases hdiv : n / 10 = 0
    · have hn : n < 10 := by omega
      have hred : Nat.toDigitsCore 10 (f + 1) n ds
          = Nat.digitChar (n % 10) :: ds := by
        simp [Nat.toDigitsCore, hdiv]
      rw [hred]
      show ds.foldl decodeStep (decodeStep 0 (Nat.digitChar (n % 10)))
          = ds.foldl decodeStep n
      rw [show decodeStep 0 (Nat.digitChar (n % 10)) = n by
        simp [decodeStep, digitVal_digitChar (Nat.mod_lt n (by norm_num))]
        omega]
    · have hlt : n / 10 < 10 ^ f := by
        rw [Nat.div_lt_iff_lt_mul (by norm_num : 0 < 10)]
        calc n < 10 ^ (f + 1) := h
          _ = 10 ^ f * 10 := pow_succ 10 f
      have hred : Nat.toDigitsCore 10 (f + 1) n ds
          = Nat.toDigitsCore 10 f (n / 10) (Nat.digitChar (n % 10) :: ds) := by
        simp [Nat.toDigitsCore, hdiv]
      rw [hred, ih (n / 10) _ hlt]
      show ds.foldl decodeStep (decodeStep (n / 10) (Nat.digitChar (n % 10)))
          = ds.foldl decodeStep n
      rw [show decodeStep (n / 10) (Nat.digitChar (n % 10)) = n by
        simp [decodeStep, digitVal_digitChar (Nat.mod_lt n (by norm_num))]
        omega]

theorem natDecode_repr (n : Nat) : natDecode (Nat.repr n).data = n := by
  have h10 : n < 10 ^ (n + 1) :=
    lt_of_lt_of_le (Nat.lt_pow_self (by norm_num) n)
      (Nat.pow_le_pow_right (by norm_num) (Nat.le_succ n))
  have h := foldl_toDigitsCore (n + 1) n [] h10
  simpa [natDecode, Nat.repr, Nat.toDigits, List.asString] using h

theorem natRepr_inj {m n : Nat} (h : Nat.repr m = Nat.repr n) : m = n := by
  have h2 := congrArg (fun s => natDecode s.data) h
  simpa [natDecode_repr] using h2

theorem mem_toDigitsCore (f : Nat) :
    ∀ (n : Nat) (ds : List Char) (c : Char),
      c ∈ Nat.toDigitsCore 10 f n ds → c ∈ ds ∨ c.isDigit = true := by
  induction f with
  | zero => intro n ds c hc; exact Or.inl hc
  | succ f ih =>
    intro n ds c hc
    by_cases hdiv : n / 10 = 0
    · rw [show Nat.toDigitsCore 10 (f + 1) n ds = Nat.digitChar (n % 10) :: ds
        from by simp [Nat.toDigitsCore, hdiv]] at hc
      rcases List.mem_cons.mp hc with hc | hc
      · exact Or.inr (hc ▸ digitChar_isDigit (Nat.mod_lt n (by norm_num)))
      · exact Or.inl hc
    · rw [show Nat.toDigitsCore 10 (f + 1) n ds
          = Nat.toDigitsCore 10 f (n / 10) (Nat.digitChar (n % 10) :: ds)
        from by simp [Nat.toDigitsCore, hdiv]] at hc
      rcases ih _ _ _ hc with hc | hc
      · rcases List.mem_cons.mp hc with hc | hc
        · exact Or.inr (hc ▸ digitChar_isDigit (Nat.mod_lt n (by norm_num)))
        · exact Or.inl hc
      · exact Or.inr hc

theorem repr_isDigit (n : Nat) {c : Char} (hc : c ∈ (Nat.repr n).data) :
    c.isDigit = true := by
  have h := mem_toDigitsCore (n + 1) n [] c
    (by simpa [Nat.repr, Nat.toDigits, List.asString] using hc)
  simpa using h

theorem dash_not_mem_repr (n : Nat) : '-' ∉ (Nat.repr n).data :=
  fun h => absurd (repr_isDigit n h) (by decide)

theorem dot_not_mem_repr (n : Nat) : '.' ∉ (Nat.repr n).data :=
  fun h => absurd (repr_isDigit n h) (by decide)

theorem splitAtSep {sep : Char} :
    ∀ (a1 a2 r1 r2 : List Char), sep ∉ a1 → sep ∉ a2 →
      a1 ++ sep :: r1 = a2 ++ sep :: r2 → a1 = a2 ∧ r1 = r2 := by
  intro a1
  induction a1 with
  | nil =>
    intro a2 r1 r2 _ h2 heq
    cases a2 with
    | nil => simpa using heq
    | cons b bs =>
      have hb : sep = b ∧ r1 = bs ++ sep :: r2 := by simpa using heq
      exact absurd (by rw [hb.1]; exact List.mem_cons_self b bs) h2
  | cons a as ih =>
    intro a2 r1 r2 h1 h2 heq
    cases a2 with
    | nil =>
      have ha : a = sep ∧ as ++ sep :: r1 = r2 := by simpa using heq
      exact absurd (by rw [← ha.1]; exact List.mem_cons_self a as) h1
    | cons b bs =>
      have hab : a = b ∧ as ++ sep :: r1 = bs ++ sep :: r2 := by simpa using heq
      have h1' : sep ∉ as := fun hmem => h1 (List.mem_cons_of_mem a hmem)
      have h2' : sep ∉ bs := fun hmem => h2 (List.mem_cons_of_mem b hmem)
      obtain ⟨hA, hR⟩ := ih bs r1 r2 h1' h2' hab.2
      exact ⟨by rw [hab.1, hA], hR⟩

/-! ### Collision structure of the generated names -/

theorem extname_valid (s : String) :
    extname s = "" ∨
      ∃ cs : List Char, (extname s).data = '.' :: cs ∧ '.' ∉ cs := by
  unfold extname
  dsimp only
  split
  · left
    rfl
  · right
    refine ⟨(s.data.reverse.takeWhile (fun c => c ≠ '.')).reverse, rfl, ?_⟩
    intro hmem
    have hp := List.mem_takeWhile_imp (List.mem_reverse.mp hmem)
    simp at hp

theorem multerFilename_data (t r : Nat) (e : String) :
    (multerFilename t r e).data
      = (Nat.repr t).data ++ '-' :: ((Nat.repr r).data ++ e.data) := by
  simp [multerFilename, String.data_append, toString, List.append_assoc]

theorem s3Key_data (t : Nat) (n : String) :
    (s3Key t n).data
      = "kling-uploads/".data ++ ((Nat.repr t).data ++ '-' :: n.data) := by
  simp [s3Key, String.data_append, toString, List.append_assoc]

theorem s3Key_eq_iff (t1 t2 : Nat) (n1 n2 : String) :
    s3Key t1 n1 = s3Key t2 n2 ↔ t1 = t2 ∧ n1 = n2 := by
  constructor
  · intro h
    have hd := congrArg String.data h
    rw [s3Key_data, s3Key_data] at hd
    have h2 := List.append_cancel_left hd
    obtain ⟨hT, hN⟩ :=
      splitAtSep _ _ _ _ (dash_not_mem_repr t1) (dash_not_mem_repr t2) h2
    exact ⟨natRepr_inj (String.ext hT), String.ext hN⟩
  · rintro ⟨rfl, rfl⟩
    rfl

theorem multerFilename_ext_eq_iff (t1 t2 r1 r2 : Nat) (s1 s2 : String) :
    multerFilename t1 r1 (extname s1) = multerFilename t2 r2 (extname s2) ↔
      t1 = t2 ∧ r1 = r2 ∧ extname s1 = extname s2 := by
  constructor
  · intro h
    have hd := congrArg String.data h
    rw [multerFilename_data, multerFilename_data] at hd
    obtain ⟨hT, hRest⟩ :=
      splitAtSep _ _ _ _ (dash_not_mem_repr t1) (dash_not_mem_repr t2) hd
    have ht : t1 = t2 := natRepr_inj (String.ext hT)
    rcases extname_valid s1 with he1 | ⟨cs1, he1, hne1⟩ <;>
      rcases extname_valid s2 with he2 | ⟨cs2, he2, hne2⟩
    · rw [he1, he2] at hRest
      simp only [String.data] at hRest
      simp at hRest
      exact ⟨ht, natRepr_inj (String.ext hRest), by rw [he1, he2]⟩
    · rw [he1] at hRest
      simp at hRest
      rw [he2] at hRest
      exact absurd
        (by rw [hRest]; exact List.mem_append_right _ (List.mem_cons_self '.' cs2))
        (dot_not_mem_repr r1)
    · rw [he2] at hRest
      simp at hRest
      rw [he1] at hRest
      exact absurd
        (by rw [← hRest]; exact List.mem_append_right _ (List.mem_cons_self '.' cs1))
        (dot_not_mem_repr r2)
    · rw [he1, he2] at hRest
      obtain ⟨hR, hCs⟩ :=
        splitAtSep _ _ _ _ (dot_not_mem_repr r1) (dot_not_mem_repr r2) hRest
      exact ⟨ht, natRepr_inj (String.ext hR),
        String.ext (by rw [he1, he2, hCs])⟩
  · rintro ⟨rfl, rfl, he⟩
    rw [he]

/-! ### Concrete request fixtures used by witnesses and counterexamples -/

/-- A well-formed small image upload. -/
def imgSmall : UploadedFile :=
  { path := "uploads/1-1.png", originalname := "a.png",
    mimetype := "image/png", size := 1000 }

/-- A well-formed small video upload. -/
def vidSmall : UploadedFile :=
  { path := "uploads/1-2.mp4", originalname := "b.mp4",
    mimetype := "video/mp4", size := 5000 }

/-- An image upload one byte over the handler's 10 MiB bound (but within
the multer transport cap). -/
def imgBig : UploadedFile :=
  { path := "uploads/2-1.png", originalname := "big.png",
    mimetype := "image/png", size := 10 * 1024 * 1024 + 1 }

/-- A video upload one byte over the multer transport cap. -/
def vidHuge : UploadedFile :=
  { path := "uploads/1-3.mp4", originalname := "c.mp4",
    mimetype := "video/mp4", size := 100 * 1024 * 1024 + 1 }

/-- A form body that passes field validation. -/
def bodyOk : GenerateBody :=
  { prompt := "", character_orientation := some "forward",
    mode := some "std", keep_original_sound := "yes" }

/-- A generate environment where S3 is enabled and every remote call
succeeds. -/
def envAllOk : GenerateEnv :=
  { s3EnabledEnv := some "true", imageUpload := .ok "https://s3/img",
    videoUpload := .ok "https://s3/vid",
    kling := .ok "tid" "submitted" "ts" }

/-- A generate environment where the S3 toggle is off. -/
def envS3Off : GenerateEnv :=
  { s3EnabledEnv := some "false", imageUpload := .ok "https://s3/img",
    videoUpload := .ok "https://s3/vid",
    kling := .ok "tid" "submitted" "ts" }

/-- A download environment where everything works but the response read
stream errors. -/
def envStreamErr : DownloadEnv :=
  { taskQuery := .ok "succeed" (some "https://cdn/video.mp4"),
    logoExists := true, videoDownload := .ok, ffmpegRun := .ok,
    streamOutcome := .errored }

/-- A download environment where everything works and the stream ends
normally. -/
def envStreamOk : DownloadEnv :=
  { taskQuery := .ok "succeed" (some "https://cdn/video.mp4"),
    logoExists := true, videoDownload := .ok, ffmpegRun := .ok,
    streamOutcome := .ended }

/-! ### The claims -/

/-- C4: for every token-signing call that produces a signed credential,
the expiry claim equals the issuance time plus 1800 seconds and the
not-before claim equals the issuance time minus 5 seconds; and the header
builder carries exactly the token generated fresh at the call's own time,
so no cached token can ever be attached. -/
theorem c4_token_claims (accessKey secretKey : Option String) (now : Int)
    (h : AuthHeaders) (hh : getAuthHeaders accessKey secretKey now = .ok h) :
    h.bearerToken.exp = now + 1800 ∧ h.bearerToken.nbf = now - 5 ∧
      generateJwtToken accessKey secretKey now = .ok h.bearerToken := by
  rcases accessKey with _ | ak
  · simp [getAuthHeaders, generateJwtToken, Except.map] at hh
  rcases secretKey with _ | sk
  · simp [getAuthHeaders, generateJwtToken, Except.map] at hh
  by_cases hsk : jsTrim sk = ""
  · simp [getAuthHeaders, generateJwtToken, hsk, Except.map] at hh
  · simp [getAuthHeaders, generateJwtToken, hsk, Except.map] at hh
    subst hh
    exact ⟨rfl, rfl, by simp [generateJwtToken, hsk]⟩

/-- Witness for C4 at a concrete signing call. -/
theorem c4_token_claims_witness :
    ({ contentType := "application/json",
       bearerToken := { iss := "AK", exp := 2800, nbf := 995 } } :
        AuthHeaders).bearerToken.exp = 1000 + 1800 ∧
    ({ contentType := "application/json",
       bearerToken := { iss := "AK", exp := 2800, nbf := 995 } } :
        AuthHeaders).bearerToken.nbf = 1000 - 5 ∧
    generateJwtToken (some "AK") (some "SK") 1000
      = .ok ({ contentType := "application/json",
               bearerToken := { iss := "AK", exp := 2800, nbf := 995 } } :
          AuthHeaders).bearerToken :=
  c4_token_claims (some "AK") (some "SK") 1000
    { contentType := "application/json",
      bearerToken := { iss := "AK", exp := 2800, nbf := 995 } } (by rfl)

/-- C5 counterexample: with an empty issuer credential and a valid secret,
signing does not fail fast — it emits a token whose issuer claim is the
empty string. -/
theorem c5_counterexample :
    generateJwtToken (some "") (some "topsecret") 1000
      = .ok { iss := "", exp := 2800, nbf := 995 } := by
  rfl

/-- C5 (amended): signing fails fast when either credential is absent
(undefined) or when the secret trims to empty; but an issuer
credential that is present yet empty (or whitespace) is not rejected —
the signer emits a token whose issuer claim is the empty string. -/
theorem c5_amended (ak sk : String) (skOpt : Option String) (now : Int) :
    generateJwtToken none skOpt now = .error .undefinedAccessKey ∧
    generateJwtToken (some ak) none now = .error .undefinedSecretKey ∧
    (jsTrim sk = "" →
      generateJwtToken (some ak) (some sk) now = .error .emptySecretKey) ∧
    (jsTrim sk ≠ "" → jsTrim ak = "" →
      generateJwtToken (some ak) (some sk) now
        = .ok { iss := "", exp := now + 1800, nbf := now - 5 }) := by
  refine ⟨rfl, rfl, ?_, ?_⟩
  · intro hsk
    simp [generateJwtToken, hsk]
  · intro hsk hak
    simp [generateJwtToken, hsk, hak]

/-- Witness for C5 (amended) at concrete credentials. -/
theorem c5_amended_witness :
    generateJwtToken none (some "s") 0 = .error .undefinedAccessKey ∧
    generateJwtToken (some "a") none 0 = .error .undefinedSecretKey ∧
    generateJwtToken (some "a") (some "  ") 0 = .error .emptySecretKey ∧
    generateJwtToken (some " ") (some "s") 0
      = .ok { iss := "", exp := 0 + 1800, nbf := 0 - 5 } := by
  refine ⟨(c5_amended "a" "x" (some "s") 0).1,
          (c5_amended "a" "x" (some "s") 0).2.1, ?_, ?_⟩
  · exact (c5_amended "a" "  " (some "s") 0).2.2.1 (by decide)
  · exact (c5_amended " " "s" (some "x") 0).2.2.2 (by decide) (by decide)

/-- C7: a request without an Origin header is always allowed; a request
with a non-empty Origin header is allowed exactly when that header is an
exact member of the fixed allowlist. -/
theorem c7_cors (o : String) :
    corsOriginAllowed none = true ∧
    (o ≠ "" → (corsOriginAllowed (some o) = true ↔ o ∈ allowedOrigins)) := by
  refine ⟨rfl, fun ho => ?_⟩
  simp [corsOriginAllowed, ho]

/-- Witness for C7 at concrete origins. -/
theorem c7_cors_witness :
    corsOriginAllowed none = true ∧
    corsOriginAllowed (some "http://localhost:3000") = true ∧
    corsOriginAllowed (some "https://evil.example") = false := by
  refine ⟨(c7_cors "x").1, ?_, ?_⟩
  · exact ((c7_cors "http://localhost:3000").2 (by decide)).mpr (by decide)
  · by_cases hb : corsOriginAllowed (some "https://evil.example") = true
    · exact absurd (((c7_cors "https://evil.example").2 (by decide)).mp hb)
        (by decide)
    · simpa using hb

/-- Helper: a request failing the validation gate gets a 400 response from
the handler, reaches no remote interaction, and has no cleanup performed
(the early returns sit inside the try block and bypass both `cleanupFiles`
call sites). -/
theorem postGenerate_invalid (env : GenerateEnv) (files : GenerateFiles)
    (body : GenerateBody) (h : validationOk files body = false) :
    (postGenerate env files body).status = 400 ∧
    (postGenerate env files body).calls = [] ∧
    (postGenerate env files body).cleaned = [] := by
  rcases hfi : files.image with _ | i
  · simp [postGenerate, hfi]
  rcases hfv : files.video with _ | v
  · simp [postGenerate, hfi, hfv]
  by_cases h1 : i.size > 10 * 1024 * 1024
  · simp [postGenerate, hfi, hfv, h1]
  by_cases h2 : v.size > 100 * 1024 * 1024
  · simp [postGenerate, hfi, hfv, h1, h2]
  by_cases h3 : strTruthy body.character_orientation = true
  · by_cases h4 : strTruthy body.mode = true
    · exfalso
      rw [validationOk, hfi, hfv] at h
      simp [h1, h2, h3, h4] at h
    · simp [postGenerate, hfi, hfv, h1, h2, h3, h4]
  · simp [postGenerate, hfi, hfv, h1, h2, h3]

/-- C1 counterexample: an oversized-image submission (a validation
failure) exits with 400 while both stored uploads were written to disk
and nothing is cleaned up — the uploaded temp files are not removed on
this exit path. -/
theorem c1_counterexample :
    (postGenerate envAllOk ⟨some imgBig, some vidSmall⟩ bodyOk).status = 400 ∧
    storedPaths ⟨some imgBig, some vidSmall⟩
      = ["uploads/2-1.png", "uploads/1-2.mp4"] ∧
    (postGenerate envAllOk ⟨some imgBig, some vidSmall⟩ bodyOk).cleaned = [] := by
  refine ⟨by decide, by decide, by decide⟩

/-- C1 (amended): once validation passes, both stored uploads are passed
to cleanup on every exit path of the handler — success, S3 failure,
upstream API failure and transport failure alike; but on every
validation-failure exit (missing file, oversized file, missing field)
no cleanup is performed at all and any stored upload remains on disk. -/
theorem c1_amended (env : GenerateEnv) (files : GenerateFiles)
    (body : GenerateBody) :
    (∀ i v, files.image = some i → files.video = some v →
      validationOk files body = true →
      (postGenerate env files body).cleaned = [i.path, v.path]) ∧
    (validationOk files body = false →
      (postGenerate env files body).cleaned = []) := by
  constructor
  · intro i v hi hv hval
    rw [validationOk, hi, hv] at hval
    simp only [Bool.and_eq_true, Bool.not_eq_true', decide_eq_false_iff_not]
      at hval
    obtain ⟨⟨⟨h1, h2⟩, h3⟩, h4⟩ := hval
    obtain ⟨se, iu, vu, k⟩ := env
    by_cases hse : se = some "true" <;>
      rcases iu with u1 | m1 <;> rcases vu with u2 | m2 <;>
      rcases k with ⟨kt, ks, kc⟩ | ⟨kst, kmsg⟩ | km <;>
      simp [postGenerate, hi, hv, s3Enabled, hse, h1, h2, h3, h4]
  · exact fun h => (postGenerate_invalid env files body h).2.2

/-- Witness for C1 (amended): a fully valid submission in a healthy
environment cleans up exactly the two stored files. -/
theorem c1_amended_witness :
    (postGenerate envAllOk ⟨some imgSmall, some vidSmall⟩ bodyOk).cleaned
      = [imgSmall.path, vidSmall.path] :=
  (c1_amended envAllOk ⟨some imgSmall, some vidSmall⟩ bodyOk).1
    imgSmall vidSmall rfl rfl (by decide)

/-- C3 counterexample: a submission whose video is one byte over 100 MiB
is a validation violation, but the route answers it with the middleware's
500, not with 400 — the multer transport cap rejects it before the
handler's 400 check can run (no remote call is made, though). -/
theorem c3_counterexample :
    validationOk ⟨some imgSmall, some vidHuge⟩ bodyOk = false ∧
    routeStatus (generateRoute envAllOk ⟨some imgSmall, some vidHuge⟩ bodyOk)
      = 500 ∧
    routeCalls (generateRoute envAllOk ⟨some imgSmall, some vidHuge⟩ bodyOk)
      = [] := by
  refine ⟨by decide, by decide, by decide⟩

/-- C3 (amended): every validation violation causes zero remote calls;
violations on requests whose files are within the 100 MiB transport cap
are answered 400 by the handler, while a file above the cap is rejected
by the upload middleware with a 500 — still before any remote call. -/
theorem c3_amended (env : GenerateEnv) (files : GenerateFiles)
    (body : GenerateBody) (hval : validationOk files body = false) :
    routeCalls (generateRoute env files body) = [] ∧
    (underMulterLimit files = true →
      routeStatus (generateRoute env files body) = 400) ∧
    (underMulterLimit files = false →
      routeStatus (generateRoute env files body) = 500) := by
  by_cases hover : (fileOverLimit files.image || fileOverLimit files.video)
      = true
  · have hu : underMulterLimit files = false := by
      rw [underMulterLimit]
      rcases Bool.or_eq_true_iff.mp hover with h | h <;> simp [h]
    exact ⟨by simp [generateRoute, hover, routeCalls],
           fun hcontra => absurd hcontra (by simp [hu]),
           fun _ => by simp [generateRoute, hover, routeStatus]⟩
  · have hover2 : (fileOverLimit files.image || fileOverLimit files.video)
        = false := by
      simpa using hover
    have hu : underMulterLimit files = true := by
      rw [underMulterLimit]
      rcases Bool.or_eq_false_iff.mp hover2 with ⟨h1, h2⟩
      simp [h1, h2]
    obtain ⟨hst, hca, _⟩ := postGenerate_invalid env files body hval
    exact ⟨by simp [generateRoute, hover2, routeCalls, hca],
           fun _ => by simp [generateRoute, hover2, routeStatus, hst],
           fun hcontra => absurd hcontra (by simp [hu])⟩

/-- Witness for C3 (amended): a submission missing its image file is
answered 400 with zero remote calls. -/
theorem c3_amended_witness :
    routeCalls (generateRoute envAllOk ⟨none, some vidSmall⟩ bodyOk) = [] ∧
    routeStatus (generateRoute envAllOk ⟨none, some vidSmall⟩ bodyOk) = 400 := by
  obtain ⟨h1, h2, _⟩ :=
    c3_amended envAllOk ⟨none, some vidSmall⟩ bodyOk (by decide)
  exact ⟨h1, h2 (by decide)⟩

/-- C10: with the S3 toggle set to anything other than the string `true`,
every submission that passes validation fails with 500 and the message
`S3 is not configured`, and no remote interaction — neither an S3 upload
nor the external generation request — is ever reached. -/
theorem c10_s3_disabled (env : GenerateEnv) (files : GenerateFiles)
    (body : GenerateBody) (i v : UploadedFile)
    (hi : files.image = some i) (hv : files.video = some v)
    (hval : validationOk files body = true)
    (hs3 : env.s3EnabledEnv ≠ some "true") :
    (postGenerate env files body).status = 500 ∧
    (postGenerate env files body).message = "S3 is not configured" ∧
    (postGenerate env files body).calls = [] := by
  have hs : s3Enabled env = false := by
    simp [s3Enabled]
    exact hs3
  rw [validationOk, hi, hv] at hval
  simp only [Bool.and_eq_true, Bool.not_eq_true', decide_eq_false_iff_not]
    at hval
  obtain ⟨⟨⟨h1, h2⟩, h3⟩, h4⟩ := hval
  simp [postGenerate, hi, hv, hs, h1, h2, h3, h4]

/-- Witness for C10: a valid submission with the toggle set to `false`. -/
theorem c10_s3_disabled_witness :
    (postGenerate envS3Off ⟨some imgSmall, some vidSmall⟩ bodyOk).status
      = 500 ∧
    (postGenerate envS3Off ⟨some imgSmall, some vidSmall⟩ bodyOk).message
      = "S3 is not configured" ∧
    (postGenerate envS3Off ⟨some imgSmall, some vidSmall⟩ bodyOk).calls
      = [] :=
  c10_s3_disabled envS3Off ⟨some imgSmall, some vidSmall⟩ bodyOk
    imgSmall vidSmall rfl rfl (by decide) (by decide)

/-- C2 counterexample: in a run where download, watermarking and response
setup all succeed but the read stream errors, streaming fails — yet
nothing is deleted: both temp files remain on disk, because the stream's
error handler only ends the response. -/
theorem c2_counterexample :
    (downloadHandler envStreamErr "task1" 100 101).status = 200 ∧
    (downloadHandler envStreamErr "task1" 100 101).tempCreated
      = ["temp-input-task1-100.mp4", "temp-output-task1-101.mp4"] ∧
    (downloadHandler envStreamErr "task1" 100 101).cleaned = [] := by
  refine ⟨by decide, by decide, by decide⟩

/-- C2 (amended): once the watermarking stage is reached, both temp files
are deleted when the response stream ends normally and on every error
thrown before streaming starts (download failure, ffmpeg failure); but
when the read stream itself fails, no deletion happens and both temp
files remain on disk. -/
theorem c2_amended (env : DownloadEnv) (taskId u : String)
    (nowIn nowOut : Nat)
    (hq : env.taskQuery = .ok "succeed" (some u))
    (hl : env.logoExists = true) :
    (downloadHandler env taskId nowIn nowOut).tempCreated
      = [tempInputName taskId nowIn, tempOutputName taskId nowOut] ∧
    (∀ m, env.videoDownload = .fail m →
      (downloadHandler env taskId nowIn nowOut).cleaned
        = (downloadHandler env taskId nowIn nowOut).tempCreated) ∧
    (∀ m, env.videoDownload = .ok → env.ffmpegRun = .fail m →
      (downloadHandler env taskId nowIn nowOut).cleaned
        = (downloadHandler env taskId nowIn nowOut).tempCreated) ∧
    (env.videoDownload = .ok → env.ffmpegRun = .ok →
      env.streamOutcome = .ended →
      (downloadHandler env taskId nowIn nowOut).cleaned
        = (downloadHandler env taskId nowIn nowOut).tempCreated) ∧
    (env.videoDownload = .ok → env.ffmpegRun = .ok →
      env.streamOutcome = .errored →
      (downloadHandler env taskId nowIn nowOut).cleaned = []) := by
  obtain ⟨tq, lg, dl, ff, st⟩ := env
  simp only at hq hl
  subst hq
  subst hl
  rcases dl with _ | m1 <;> rcases ff with _ | m2 <;> rcases st <;>
    simp [downloadHandler]

/-- Witness for C2 (amended): a fully successful run whose stream ends
normally deletes exactly what it created. -/
theorem c2_amended_witness :
    (downloadHandler envStreamOk "task1" 100 101).cleaned
      = (downloadHandler envStreamOk "task1" 100 101).tempCreated :=
  (c2_amended envStreamOk "task1" "https://cdn/video.mp4" 100 101 rfl
    rfl).2.2.2.1 rfl rfl rfl

/-- C6: the download precondition ladder — a non-succeed upstream status
answers 400, a succeed status without a result URL answers 404, and a
missing logo asset answers 500; in all three cases no video download is
attempted and the media tool is never invoked. -/
theorem c6_download_preconditions (env : DownloadEnv) (taskId : String)
    (nowIn nowOut : Nat) :
    (∀ st u, env.taskQuery = .ok st u → st ≠ "succeed" →
      (downloadHandler env taskId nowIn nowOut).status = 400 ∧
      (downloadHandler env taskId nowIn nowOut).downloadAttempts = 0 ∧
      (downloadHandler env taskId nowIn nowOut).ffmpegInvocations = 0) ∧
    (env.taskQuery = .ok "succeed" none →
      (downloadHandler env taskId nowIn nowOut).status = 404 ∧
      (downloadHandler env taskId nowIn nowOut).downloadAttempts = 0 ∧
      (downloadHandler env taskId nowIn nowOut).ffmpegInvocations = 0) ∧
    (∀ u, env.taskQuery = .ok "succeed" (some u) → env.logoExists = false →
      (downloadHandler env taskId nowIn nowOut).status = 500 ∧
      (downloadHandler env taskId nowIn nowOut).downloadAttempts = 0 ∧
      (downloadHandler env taskId nowIn nowOut).ffmpegInvocations = 0) := by
  refine ⟨?_, ?_, ?_⟩
  · intro st u hq hne
    simp [downloadHandler, hq, hne]
  · intro hq
    simp [downloadHandler, hq]
  · intro u hq hlogo
    simp [downloadHandler, hq, hlogo]

/-- Witness for C6 at three concrete download environments. -/
theorem c6_download_preconditions_witness :
    ((downloadHandler ⟨.ok "processing" none, true, .ok, .ok, .ended⟩
        "t" 1 2).status = 400 ∧
      (downloadHandler ⟨.ok "processing" none, true, .ok, .ok, .ended⟩
        "t" 1 2).downloadAttempts = 0 ∧
      (downloadHandler ⟨.ok "processing" none, true, .ok, .ok, .ended⟩
        "t" 1 2).ffmpegInvocations = 0) ∧
    ((downloadHandler ⟨.ok "succeed" none, true, .ok, .ok, .ended⟩
        "t" 1 2).status = 404 ∧
      (downloadHandler ⟨.ok "succeed" none, true, .ok, .ok, .ended⟩
        "t" 1 2).downloadAttempts = 0 ∧
      (downloadHandler ⟨.ok "succeed" none, true, .ok, .ok, .ended⟩
        "t" 1 2).ffmpegInvocations = 0) ∧
    ((downloadHandler ⟨.ok "succeed" (some "u"), false, .ok, .ok, .ended⟩
        "t" 1 2).status = 500 ∧
      (downloadHandler ⟨.ok "succeed" (some "u"), false, .ok, .ok, .ended⟩
        "t" 1 2).downloadAttempts = 0 ∧
      (downloadHandler ⟨.ok "succeed" (some "u"), false, .ok, .ok, .ended⟩
        "t" 1 2).ffmpegInvocations = 0) :=
  ⟨(c6_download_preconditions ⟨.ok "processing" none, true, .ok, .ok, .ended⟩
      "t" 1 2).1 "processing" none rfl (by decide),
   (c6_download_preconditions ⟨.ok "succeed" none, true, .ok, .ok, .ended⟩
      "t" 1 2).2.1 rfl,
   (c6_download_preconditions ⟨.ok "succeed" (some "u"), false, .ok, .ok,
      .ended⟩ "t" 1 2).2.2 "u" rfl rfl⟩

/-- C8 counterexample: two distinct payloads received in the same
millisecond with the same display name (and, locally, the same random
draw) are assigned the same S3 key and the same stored filename — the
names collide although the payloads differ. -/
theorem c8_counterexample :
    (⟨"AAAA", "video.mp4"⟩ : UploadPayload) ≠ ⟨"BBBB", "video.mp4"⟩ ∧
    s3KeyOf 1700000000000 ⟨"AAAA", "video.mp4"⟩
      = s3KeyOf 1700000000000 ⟨"BBBB", "video.mp4"⟩ ∧
    storedNameOf 1700000000000 123456789 ⟨"AAAA", "video.mp4"⟩
      = storedNameOf 1700000000000 123456789 ⟨"BBBB", "video.mp4"⟩ := by
  refine ⟨by decide, rfl, rfl⟩

/-- C8 (amended): the generated names are determined by, and only by,
their generator inputs — two S3 keys coincide exactly when both the
millisecond timestamps and the display names coincide, and two stored
names coincide exactly when the timestamps, the random draws and the
original-name extensions coincide.  Distinctness of the payload bytes
plays no role, so two concurrent same-millisecond requests can collide;
names are distinct whenever their timestamps (or random draws) differ. -/
theorem c8_amended (t1 t2 r1 r2 : Nat) (p1 p2 : UploadPayload) :
    (s3KeyOf t1 p1 = s3KeyOf t2 p2 ↔
      t1 = t2 ∧ p1.originalname = p2.originalname) ∧
    (storedNameOf t1 r1 p1 = storedNameOf t2 r2 p2 ↔
      t1 = t2 ∧ r1 = r2 ∧
        extname p1.originalname = extname p2.originalname) :=
  ⟨s3Key_eq_iff t1 t2 p1.originalname p2.originalname,
   multerFilename_ext_eq_iff t1 t2 r1 r2 p1.originalname p2.originalname⟩

/-- Witness for C8 (amended): requests one millisecond apart always get
distinct S3 keys. -/
theorem c8_amended_witness :
    s3KeyOf 1700000000000 ⟨"AAAA", "video.mp4"⟩
      ≠ s3KeyOf 1700000000001 ⟨"AAAA", "video.mp4"⟩ := by
  intro h
  have ht := ((c8_amended 1700000000000 1700000000001 0 0
    ⟨"AAAA", "video.mp4"⟩ ⟨"AAAA", "video.mp4"⟩).1.mp h).1
  exact absurd ht (by decide)

/-- C9: every file currently present in the uploads directory — stored
client uploads and the watermark temp files alike, since both are placed
there — is served to any requester of `/uploads/<filename>`, whatever
Authorization header (or none) the request carries: the static mount
consults only the directory listing. -/
theorem c9_static_exposure (uploadsFiles : List String)
    (req : StaticRequest) (h : req.filename ∈ uploadsFiles) :
    uploadsStaticRoute uploadsFiles req = .served req.filename := by
  simp [uploadsStaticRoute, h]

/-- Witness for C9: a watermark temp file still on disk is publicly
served with no Authorization header. -/
theorem c9_static_exposure_witness :
    uploadsStaticRoute ["temp-output-task1-101.mp4"]
      ⟨"temp-output-task1-101.mp4", none⟩
      = .served "temp-output-task1-101.mp4" :=
  c9_static_exposure ["temp-output-task1-101.mp4"]
    ⟨"temp-output-task1-101.mp4", none⟩ (by decide)
